import Mathlib

/-!
Verification development for the docstring-ai repository's incremental
processing core: the cache/fingerprint engine (lib/utils.py), the
token-budgeted context assembler (lib/chroma_utils.py and
lib/prompt_utils.py), the asynchronous run-polling loop
(lib/prompt_utils.poll_run_completion) and the file-processing pipeline
(lib/process.py).  Python functions are shallowly embedded as Lean
functions; external collaborators (filesystem reads, tokenizer, ChromaDB
collection, the OpenAI service) are passed as explicit parameters, and
side effects are recorded as explicit event traces.
-/

namespace DocstringAI

/-! ## SHA-256 (the hashlib collaborator used by utils.compute_sha256)

Bytes are `Nat` values below 256; 32-bit machine words are `Nat` values
reduced modulo 2^32 at every arithmetic step. -/

def mask32 (x : Nat) : Nat := x % 4294967296

def add32 (a b : Nat) : Nat := (a + b) % 4294967296

def rotr32 (x n : Nat) : Nat := mask32 ((x >>> n) ||| (x <<< (32 - n)))

def not32 (x : Nat) : Nat := Nat.xor x 4294967295

def bsig0 (x : Nat) : Nat := Nat.xor (rotr32 x 2) (Nat.xor (rotr32 x 13) (rotr32 x 22))

def bsig1 (x : Nat) : Nat := Nat.xor (rotr32 x 6) (Nat.xor (rotr32 x 11) (rotr32 x 25))

def ssig0 (x : Nat) : Nat := Nat.xor (rotr32 x 7) (Nat.xor (rotr32 x 18) (x >>> 3))

def ssig1 (x : Nat) : Nat := Nat.xor (rotr32 x 17) (Nat.xor (rotr32 x 19) (x >>> 10))

def chFun (x y z : Nat) : Nat := Nat.xor (Nat.land x y) (Nat.land (not32 x) z)

def majFun (x y z : Nat) : Nat :=
  Nat.xor (Nat.land x y) (Nat.xor (Nat.land x z) (Nat.land y z))

def sha256K : List Nat :=
  [1116352408, 1899447441, 3049323471, 3921009573, 961987163,
   1508970993, 2453635748, 2870763221, 3624381080, 310598401,
   607225278, 1426881987, 1925078388, 2162078206, 2614888103,
   3248222580, 3835390401, 4022224774, 264347078, 604807628,
   770255983, 1249150122, 1555081692, 1996064986, 2554220882,
   2821834349, 2952996808, 3210313671, 3336571891, 3584528711,
   113926993, 338241895, 666307205, 773529912, 1294757372,
   1396182291, 1695183700, 1986661051, 2177026350, 2456956037,
   2730485921, 2820302411, 3259730800, 3345764771, 3516065817,
   3600352804, 4094571909, 275423344, 430227734, 506948616,
   659060556, 883997877, 958139571, 1322822218, 1537002063,
   1747873779, 1955562222, 2024104815, 2227730452, 2361852424,
   2428436474, 2756734187, 3204031479, 3329325298]

def sha256H0 : List Nat :=
  [1779033703, 3144134277, 1013904242, 2773480762,
   1359893119, 2600822924, 528734635, 1541459225]

/-- Big-endian rendering of `n` on `k` bytes. -/
def beBytes : Nat → Nat → List Nat
  | 0, _ => []
  | k + 1, n => beBytes k (n / 256) ++ [n % 256]

/-- SHA-256 padding: append 0x80, zero bytes up to 56 mod 64, then the
bit length on 8 big-endian bytes. -/
def padMessage (msg : List Nat) : List Nat :=
  let z := (120 - (msg.length + 1) % 64) % 64
  msg ++ [128] ++ List.replicate z 0 ++ beBytes 8 (msg.length * 8)

/-- Group bytes into big-endian 32-bit words. -/
def toWords : List Nat → List Nat
  | b1 :: b2 :: b3 :: b4 :: rest =>
      (((b1 * 256 + b2) * 256 + b3) * 256 + b4) :: toWords rest
  | _ => []

/-- Extend a 16-word block by `fuel` scheduled words. -/
def extendW (w : List Nat) : Nat → List Nat
  | 0 => w
  | f + 1 =>
      extendW (w ++ [add32 (add32 (ssig1 (w.getD (w.length - 2) 0)) (w.getD (w.length - 7) 0))
                    (add32 (ssig0 (w.getD (w.length - 15) 0)) (w.getD (w.length - 16) 0))]) f

def compressStep : (Nat × Nat × Nat × Nat × Nat × Nat × Nat × Nat) → Nat × Nat →
    (Nat × Nat × Nat × Nat × Nat × Nat × Nat × Nat)
  | (a, b, c, d, e, f, g, h), (k, w) =>
      let t1 := add32 h (add32 (bsig1 e) (add32 (chFun e f g) (add32 k w)))
      let t2 := add32 (bsig0 a) (majFun a b c)
      (add32 t1 t2, a, b, c, add32 d t1, e, f, g)

def compressBlock (H : List Nat) (block : List Nat) : List Nat :=
  let W := extendW block 48
  let s := (sha256K.zip W).foldl compressStep
    (H.getD 0 0, H.getD 1 0, H.getD 2 0, H.getD 3 0,
     H.getD 4 0, H.getD 5 0, H.getD 6 0, H.getD 7 0)
  match s with
  | (a, b, c, d, e, f, g, h) =>
      [add32 (H.getD 0 0) a, add32 (H.getD 1 0) b, add32 (H.getD 2 0) c,
       add32 (H.getD 3 0) d, add32 (H.getD 4 0) e, add32 (H.getD 5 0) f,
       add32 (H.getD 6 0) g, add32 (H.getD 7 0) h]

/-- Consecutive blocks of at most `n` elements, as produced by the Python
loop `for byte_block in iter(lambda: f.read(4096), b"")`.  The `fuel`
argument (instantiated with the list length) only bounds the recursion. -/
def chunksOfAux (n : Nat) : Nat → List α → List (List α)
  | 0, _ => []
  | _, [] => []
  | fuel + 1, l => l.take n :: chunksOfAux n fuel (l.drop n)

/-- SHA-256 digest of a whole byte string, as eight 32-bit words. -/
def sha256Words (msg : List Nat) : List Nat :=
  let ws := toWords (padMessage msg)
  (chunksOfAux 16 ws.length ws).foldl compressBlock sha256H0

def hexDigit (n : Nat) : Char :=
  if n < 10 then Char.ofNat (48 + n) else Char.ofNat (87 + n)

/-- Fixed-width (8 hex digits) rendering of one 32-bit word. -/
def wordHex (n : Nat) : List Char :=
  (List.range 8).map (fun i => hexDigit ((n >>> (28 - 4 * i)) % 16))

/-- One-shot SHA-256 hex digest of a whole byte string (64 hex characters),
the reference against which the streaming `compute_sha256` is compared. -/
def sha256hex (msg : List Nat) : String :=
  String.mk ((sha256Words msg).map wordHex).flatten

/-! ## The hashlib incremental-hash contract

The hashlib object guarantees that `h.update(a); h.update(b)` digests the
same bytes as `h.update(a + b)`: the context is modelled extensionally as
the accumulated message, with the digest computed at finalization. -/

structure Sha256Ctx where
  data : List Nat
deriving DecidableEq

def Sha256Ctx.update (ctx : Sha256Ctx) (block : List Nat) : Sha256Ctx :=
  ⟨ctx.data ++ block⟩

def Sha256Ctx.hexdigest (ctx : Sha256Ctx) : String :=
  sha256hex ctx.data

/-! ## utils.compute_sha256 (lib/utils.py lines 160-173)

The filesystem collaborator is `readFile : String -> Option (List Nat)`;
`none` models any exception while opening or reading the file (the Python
code catches every exception and returns the empty string). -/

def compute_sha256 (readFile : String → Option (List Nat)) (file_path : String) : String :=
  match readFile file_path with
  | none => ""
  | some b =>
      Sha256Ctx.hexdigest ((chunksOfAux 4096 b.length b).foldl Sha256Ctx.update ⟨[]⟩)

/-! ## utils.save_cache (lib/utils.py lines 129-138)

The body is `open(cache_file, 'w')` followed by `json.dump(cache, f,
indent=2)`.  It is modelled as the sequence of primitive filesystem
operations it performs, so that interruptions (crashes between
operations) can be analysed: applying a proper prefix of the operation
list is an interrupted save. -/

inductive FsOp where
  | openTrunc (path : String)
  | write (path : String) (data : String)
  | rename (src : String) (dst : String)
deriving DecidableEq

/-- JSON string literal (digests and relative paths contain no characters
needing escapes). -/
def jsonStr (s : String) : String := "\"" ++ s ++ "\""

/-- Serialization of the cache mapping as produced by
`json.dump(cache, f, indent=2)`. -/
def serializeCache : List (String × String) → String
  | [] => "\x7b\x7d"
  | entries =>
      "\x7b\n" ++
      String.intercalate ",\n"
        (entries.map (fun kv => "  " ++ jsonStr kv.1 ++ ": " ++ jsonStr kv.2)) ++
      "\n\x7d"

/-- Operation sequence performed by `save_cache`: truncate the target in
place, then write the serialization into it.  No temporary file and no
rename occurs anywhere in the body. -/
def save_cache_ops (cache_file : String) (cache : List (String × String)) : List FsOp :=
  [FsOp.openTrunc cache_file, FsOp.write cache_file (serializeCache cache)]

/-- Filesystem: path to contents (`none` when the file does not exist). -/
def Fs : Type := String → Option String

def applyOp (fs : Fs) : FsOp → Fs
  | FsOp.openTrunc p => fun q => if q = p then some "" else fs q
  | FsOp.write p d => fun q => if q = p then some ((fs p).getD "" ++ d) else fs q
  | FsOp.rename src dst =>
      fun q => if q = dst then fs src else if q = src then none else fs q

def applyOps (fs : Fs) (ops : List FsOp) : Fs :=
  ops.foldl applyOp fs

def FsOp.isRename : FsOp → Bool
  | FsOp.rename _ _ => true
  | _ => false

/-! ## process.filter_files_by_hash (lib/process.py lines 555-585)

`relpath` models `os.path.relpath(file_path, repo_path)`; the cache is
queried with `cache.get(relative_path)` (`none` when absent), and a file
is kept exactly when `current_hash != cached_hash`. -/

def filter_files_by_hash (readFile : String → Option (List Nat)) (relpath : String → String)
    (cache : String → Option String) (file_paths : List String) : List String :=
  file_paths.filter (fun p => some (compute_sha256 readFile p) ≠ cache (relpath p))

/-! ## chroma_utils.get_relevant_context (lib/chroma_utils.py lines 110-144)

Collaborators: `enc` is the token counter `len(encoder.encode(doc))` of
the configured tiktoken gpt2 tokenizer, and `query` maps a query text to
the document list `results['documents'][0]` returned by
`collection.query(query_texts=[query], n_results=5)`.  The Python dict
`classes` is iterated in insertion order, hence a list of pairs. -/

def mkQuery (class_name : String) (parents : List String) : String :=
  class_name ++ " " ++ String.intercalate " " parents

/-- Inner document loop.  `Sum.inr` models the early `return context`
taken when appending the next document would exceed the budget: it exits
the whole function, not just this query's loop. -/
def addDocs (enc : String → Nat) (max_tokens : Nat) :
    List String → String × Nat → (String × Nat) ⊕ String
  | [], acc => Sum.inl acc
  | doc :: docs, (context, token_count) =>
      if token_count + enc doc > max_tokens then Sum.inr context
      else addDocs enc max_tokens docs (context ++ doc ++ "\n\n", token_count + enc doc)

def addClasses (enc : String → Nat) (query : String → List String) (max_tokens : Nat) :
    List (String × List String) → String × Nat → String
  | [], acc => acc.1
  | (class_name, parents) :: rest, acc =>
      match addDocs enc max_tokens (query (mkQuery class_name parents)) acc with
      | Sum.inl acc2 => addClasses enc query max_tokens rest acc2
      | Sum.inr context => context

def get_relevant_context (enc : String → Nat) (query : String → List String)
    (classes : List (String × List String)) (max_tokens : Nat) : String :=
  addClasses enc query max_tokens classes ("", 0)

/-! ## prompt_utils.construct_few_shot_prompt (lib/prompt_utils.py lines 138-180)

The body calls `get_relevant_context(collection=..., classes=...,
max_tokens=max_tokens // 2, where=...)`, but the definition of
`get_relevant_context` in lib/chroma_utils.py accepts only `collection`,
`classes` and `max_tokens` and has no `**kwargs`.  Python's call binding
therefore raises `TypeError` before the callee body runs; the
surrounding handler catches it and returns the empty string.  The
keyword-binding check is embedded explicitly. -/

def get_relevant_context_py_params : List String := ["collection", "classes", "max_tokens"]

def construct_few_shot_prompt_call_kwargs : List String :=
  ["collection", "classes", "max_tokens", "where"]

/-- Python keyword binding for a function without `**kwargs`: every
keyword of the call must name a parameter, otherwise `TypeError`. -/
def pyCallBindingOk (params kwargs : List String) : Bool :=
  kwargs.all (fun k => params.contains k)

def fewShotPreamble : String :=
  "You will be asked to generate dosctrings. To do so we will give you some example of python code as well as some contextual information.\n"

def construct_few_shot_prompt (enc : String → Nat) (query : String → List String)
    (classes : List (String × List String)) (max_tokens : Nat)
    (context : Option String) : String :=
  if pyCallBindingOk get_relevant_context_py_params construct_few_shot_prompt_call_kwargs then
    let documents := get_relevant_context enc query classes (max_tokens / 2)
    let ex1 := fewShotPreamble
    let ex2 :=
      if documents ≠ "" then
        ex1 ++ "Python classes with comprehensive docstrings:\n\n" ++ documents ++ "\n\n"
      else ex1
    match context with
    | some c => if c ≠ "" then ex2 ++ "Contextual informations\n" ++ c ++ "\n\n" else ex2
    | none => ex2
  else ""

/-! ## prompt_utils.poll_run_completion (lib/prompt_utils.py lines 391-467)

The remote service is an oracle `service : Nat -> RunView` giving the run
view returned by the k-th `runs.retrieve` call overall (so `idx` in
`PollSt` counts polling attempts).  Local side effects are recorded as
events: a registered tool function invocation and a
`submit_tool_outputs` acknowledgment.  Exceptions inside the `try` block
(failed retrieval never modelled; `KeyError` on an unregistered name;
the explicit `raise` after a falsy tool return; the unbound
`return_value` when no call matched) all reach the `except` handler,
which breaks the inner loop and costs one retry.  The inner
poll-sleep-poll loop may run forever on a service that never leaves
`in_progress`, so it carries explicit fuel; `fuelOut` marks an execution
whose inner loop was cut short by the fuel bound (never reached in the
scenarios proved below). -/

def MAX_RETRIES : Nat := 5

def RETRY_BACKOFF : Nat := 3

def WRITE_FN : String := "write_file_with_new_docstring"

structure ToolCall where
  id : String
  name : String
  arguments : String
deriving DecidableEq

structure RunView where
  status : String
  tool_calls : List ToolCall
deriving DecidableEq

inductive Ev where
  | invoke (name : String) (args : List (String × String))
  | submit (callId : String)
deriving DecidableEq

def isInvokeEv : Ev → Bool
  | Ev.invoke _ _ => true
  | _ => false

def isSubmitEv : Ev → Bool
  | Ev.submit _ => true
  | _ => false

structure PollSt where
  idx : Nat
  trace : List Ev
deriving DecidableEq

structure RunEnv where
  service : Nat → RunView
  lastMessageTruthy : Bool
  functions : String → Option (List (String × String) → Bool)
  decode : String → List (String × String)

/-- The `for tool_call in ...tool_calls` loop of the `requires_action`
branch.  Result `true`: a matching registered function returned a truthy
value, one acknowledgment was submitted and the function returns that
value.  Result `false`: the loop ended or an exception occurred (missing
key, or the explicit raise after the loop), so the except handler will
break to a retry. -/
def runCalls (env : RunEnv) : List ToolCall → List Ev → List Ev × Bool
  | [], evs => (evs, false)
  | tc :: rest, evs =>
      if tc.name = WRITE_FN then
        match env.functions tc.name with
        | none => (evs, false)
        | some f =>
            let args := env.decode tc.arguments
            if f args then (evs ++ [Ev.invoke tc.name args, Ev.submit tc.id], true)
            else runCalls env rest (evs ++ [Ev.invoke tc.name args])
      else runCalls env rest evs

inductive LoopRes where
  | ret (b : Bool) (st : PollSt)
  | toRetry (st : PollSt)
  | fuelOut (st : PollSt)
deriving DecidableEq

/-- One execution of the inner `while True` loop, one service retrieval
per fuel unit. -/
def innerLoop (env : RunEnv) : Nat → PollSt → LoopRes
  | 0, st => LoopRes.fuelOut st
  | fuel + 1, st =>
      let view := env.service st.idx
      let st1 : PollSt := ⟨st.idx + 1, st.trace⟩
      if view.status = "completed" then
        LoopRes.ret env.lastMessageTruthy st1
      else if view.status = "failed" ∨ view.status = "expired" ∨ view.status = "cancelled" then
        LoopRes.toRetry st1
      else if view.status = "requires_action" then
        match runCalls env view.tool_calls [] with
        | (evs, true) => LoopRes.ret true ⟨st1.idx, st1.trace ++ evs⟩
        | (evs, false) => LoopRes.toRetry ⟨st1.idx, st1.trace ++ evs⟩
      else
        innerLoop env fuel st1

/-- Outer retry loop.  `rem` counts the polling attempts still allowed;
the source runs the inner loop once for each `retries` value from 0 to
`MAX_RETRIES` and returns `False` once `retries` exceeds `MAX_RETRIES`,
so `rem` starts at `MAX_RETRIES + 1`. -/
def outerLoop (env : RunEnv) (fuelInner : Nat) : Nat → PollSt → PollSt × Option Bool
  | 0, st => (st, some false)
  | rem + 1, st =>
      match innerLoop env fuelInner st with
      | LoopRes.ret b st1 => (st1, some b)
      | LoopRes.fuelOut st1 => (st1, none)
      | LoopRes.toRetry st1 => outerLoop env fuelInner rem st1

def poll_run_completion (env : RunEnv) (fuelInner : Nat) : PollSt × Option Bool :=
  outerLoop env fuelInner (MAX_RETRIES + 1) ⟨0, []⟩

/-! ## process.approve_and_save_file (lib/process.py lines 491-552)

File side effects are recorded as `FileEv` events; the cache dict is an
association list updated by `cache[relative_path] = new_hash`.
`relative_path` stands for `os.path.relpath(python_file_path, repo_path)`.
The header step is a parameter so that both the structural properties of
the body and the behaviour with the actual (missing) implementation can
be stated. -/

inductive FileEv where
  | backup (path : String)
  | write (path : String) (content : String)
  | showDiff
  | promptUser (msg : String)
deriving DecidableEq

def isUserInteraction : FileEv → Bool
  | FileEv.showDiff => true
  | FileEv.promptUser _ => true
  | _ => false

def cacheUpsert : List (String × String) → String → String → List (String × String)
  | [], k, v => [(k, v)]
  | (k0, v0) :: rest, k, v =>
      if k0 = k then (k, v) :: rest else (k0, v0) :: cacheUpsert rest k v

/-- UTF-8 bytes of a written text file, as fed back into
`compute_sha256(python_file_path)` right after the write. -/
def strBytes (s : String) : List Nat :=
  s.toUTF8.toList.map (fun b => b.toNat)

/-- Modelled from the spec: the name `ensure_docstring_header` is
imported in lib/process.py from `docstring_ai.lib.utils`, but no
definition of it exists anywhere in the repository, so resolving or
calling it can only raise; modelled as an always-failing step. -/
def ensure_docstring_header : String → Except String String :=
  fun _ => Except.error "NameError: name ensure_docstring_header is not defined"

def approve_and_save_file (ensureHeader : String → Except String String) (manual : Bool)
    (new_file_content : String) (python_file_path relative_path : String)
    (cache : List (String × String)) :
    Bool × List FileEv × List (String × String) :=
  let content := new_file_content.replace "` ``" "```"
  if content = "" then (false, [], cache)
  else
    match ensureHeader content with
    | Except.error _ => (false, [], cache)
    | Except.ok content2 =>
        (true,
         [FileEv.backup python_file_path, FileEv.write python_file_path content2],
         cacheUpsert cache relative_path (sha256hex (strBytes content2)))

/-! ## The older revision's write gate (src/docstring_ai/src/process.py lines 147-169)

For contrast with `approve_and_save_file`: in that revision, manual mode
shows a diff and requires two confirmations before the write. -/

def src_manual_write_gate (manual approve1 approve2 needBackup : Bool)
    (file_path modified_code : String) : List FileEv × Bool :=
  if manual ∧ ¬ approve1 then ([FileEv.showDiff, FileEv.promptUser "approve"], false)
  else
    let evs0 := if manual then [FileEv.showDiff, FileEv.promptUser "approve"] else []
    let evs1 := evs0 ++ (if needBackup then [FileEv.backup file_path] else [])
    if manual ∧ ¬ approve2 then (evs1 ++ [FileEv.promptUser "apply"], false)
    else
      let evs2 := evs1 ++ (if manual then [FileEv.promptUser "apply"] else [])
      (evs2 ++ [FileEv.write file_path modified_code], true)

/-! ## The per-folder docstring pass (lib/process.py lines 292-315, 364-488)

`process_files_and_create_prs` applies `filter_files_by_hash` only to
the description phase (line 269).  Its per-folder loop then calls
`process_single_file` on every file of `get_python_files(folder)`; the
cache is passed along but never consulted to skip a file.
`process_single_file` returns early only when the file cannot be read;
otherwise it always reaches `create_file_with_docstring`, which posts a
message to the thread and starts a run (remote assistant calls).  The
`context_summary` lookup only selects the description text, and
`construct_few_shot_prompt` contributes no remote assistant call (it
fails internally, see above). -/

def docstring_pass_files (get_python_files : String → List String)
    (folders : List String) : List String :=
  (folders.map get_python_files).flatten

def process_single_file_makes_assistant_call (readFile : String → Option (List Nat))
    (cache : List (String × String)) (context_summary : List (String × String))
    (p : String) : Bool :=
  match readFile p with
  | none => false
  | some _ => true

/-- Files for which a run of the per-folder loop issues at least one
remote assistant call. -/
def second_run_assistant_call_files (readFile : String → Option (List Nat))
    (cache : List (String × String)) (context_summary : List (String × String))
    (get_python_files : String → List String) (folders : List String) : List String :=
  (docstring_pass_files get_python_files folders).filter
    (process_single_file_makes_assistant_call readFile cache context_summary)

/-! ## Concrete scenarios used by the theorems below -/

/-- Remote service whose run status is always `failed`. -/
def envAlwaysFailed : RunEnv :=
  ⟨fun _ => ⟨"failed", []⟩, true, fun _ => none, fun _ => []⟩

def tcWrite : ToolCall :=
  ⟨"call_1", "write_file_with_new_docstring", "\x7b\"new_file_content\": \"code\"\x7d"⟩

/-- Run stuck in `requires_action` with one correctly-named tool call
whose registered implementation returns a falsy value. -/
def envToolFalsy : RunEnv :=
  ⟨fun _ => ⟨"requires_action", [tcWrite]⟩, true,
   fun n => if n = WRITE_FN then some (fun _ => false) else none,
   fun _ => [("new_file_content", "code")]⟩

/-- Run stuck in `requires_action` with one tool call naming a function
that is registered in the mapping but is not the hard-coded
`write_file_with_new_docstring`. -/
def envToolOtherName : RunEnv :=
  ⟨fun _ => ⟨"requires_action", [⟨"call_2", "make_docstrings", "\x7b\x7d"⟩]⟩, true,
   fun n => if n = "make_docstrings" then some (fun _ => true) else none,
   fun _ => []⟩

/-- Run in `requires_action` with one correctly-named tool call whose
registered implementation returns a truthy value. -/
def envToolTruthy : RunEnv :=
  ⟨fun _ => ⟨"requires_action", [tcWrite]⟩, true,
   fun n => if n = WRITE_FN then some (fun _ => true) else none,
   fun _ => [("new_file_content", "code")]⟩

/-- Tokenizer model: one token per character; like the configured gpt2
tokenizer, the `"\n\n"` separator appended by the assembler has a
positive token count. -/
def charTok (s : String) : Nat := s.length

/-- Retrieval collaborator returning one two-character document. -/
def queryAB : String → List String := fun _ => ["ab"]

/-- Filesystem in which no file is readable. -/
def noReadFs : String → Option (List Nat) := fun _ => none

/-- Cache holding a real 64-hex-character digest for every path. -/
def cacheAll64 : String → Option String := fun _ => some (String.mk (List.replicate 64 'a'))

def pathX : String := "x.py"

def shaPathA : String := "sub/a.py"

def shaPathB : String := "sub/b.py"

/-- Filesystem in which every path reads as the single byte 0x61. -/
def oneByteFs : String → Option (List Nat) := fun _ => some [97]

def cacheFileName : String := "docstring_cache.json"

def oldCacheC6 : List (String × String) :=
  [("a.py", "1111111111111111111111111111111111111111111111111111111111111111")]

def newCacheC6 : List (String × String) :=
  [("a.py", "2222222222222222222222222222222222222222222222222222222222222222")]

/-- Filesystem state before a save: the target holds the serialized old
mapping. -/
def fsBeforeC6 : Fs :=
  fun q => if q = cacheFileName then some (serializeCache oldCacheC6) else none

def aPy : String := "a.py"

/-- One-file repository: only `a.py` exists, with content byte 0x61. -/
def oneFileFs : String → Option (List Nat) := fun p => if p = aPy then some [97] else none

/-- Cache already holding the current fingerprint of `a.py` (the
situation after a completed first run on an unchanged file set). -/
def cleanCacheFun : String → Option String :=
  fun p => if p = aPy then some (sha256hex [97]) else none

def cleanCacheList : List (String × String) := [(aPy, sha256hex [97])]

/-- Folder listing collaborator of the one-file repository. -/
def rootListing : String → List String := fun _ => [aPy]

/-! ## Helper lemmas -/

theorem chunksOfAux_flatten {α : Type} (n : Nat) (hn : 0 < n) :
    ∀ (fuel : Nat) (l : List α), l.length ≤ fuel → (chunksOfAux n fuel l).flatten = l := by
  intro fuel
  induction fuel with
  | zero =>
      intro l hl
      have : l = [] := List.length_eq_zero.mp (Nat.le_zero.mp hl)
      subst this
      rfl
  | succ fuel ih =>
      intro l hl
      cases l with
      | nil => rfl
      | cons a t =>
          simp only [chunksOfAux, List.flatten_cons]
          have hlen : ((a :: t).drop n).length ≤ fuel := by
            simp only [List.length_cons] at hl
            simp only [List.length_drop, List.length_cons]
            omega
          rw [ih ((a :: t).drop n) hlen]
          exact List.take_append_drop n (a :: t)

theorem foldl_sha_update (cs : List (List Nat)) :
    ∀ d : List Nat, cs.foldl Sha256Ctx.update ⟨d⟩ = ⟨d ++ cs.flatten⟩ := by
  induction cs with
  | nil => intro d; simp
  | cons c cs ih =>
      intro d
      simp only [List.foldl_cons, Sha256Ctx.update, List.flatten_cons]
      rw [ih (d ++ c), List.append_assoc]

/-- Streaming-vs-oneshot core fact: reading the file in 4096-byte blocks
and folding `update` digests exactly the whole content. -/
theorem compute_sha256_spec (readFile : String → Option (List Nat)) (p : String)
    (b : List Nat) (h : readFile p = some b) :
    compute_sha256 readFile p = sha256hex b := by
  simp only [compute_sha256, h]
  rw [foldl_sha_update]
  simp only [Sha256Ctx.hexdigest, List.nil_append]
  rw [chunksOfAux_flatten 4096 (by omega) b.length b (Nat.le_refl _)]

/-! ## Claim theorems -/

/-- C8: for every byte content of a readable file, `compute_sha256`,
which consumes the file in 4096-byte blocks, returns the same hex
digest as the one-shot SHA-256 of the whole content, and it is
deterministic: any two paths reading identical bytes yield identical
fingerprints. -/
theorem compute_sha256_refines_oneshot (readFile : String → Option (List Nat)) (p : String)
    (b : List Nat) (h : readFile p = some b) :
    compute_sha256 readFile p = sha256hex b ∧
    ∀ q, readFile q = some b → compute_sha256 readFile q = compute_sha256 readFile p := by
  have hs := compute_sha256_spec readFile p b h
  exact ⟨hs, fun q hq => by rw [compute_sha256_spec readFile q b hq, hs]⟩

theorem compute_sha256_refines_oneshot_witness :
    compute_sha256 oneByteFs shaPathA = sha256hex [97] ∧
    compute_sha256 oneByteFs shaPathB = compute_sha256 oneByteFs shaPathA := by
  have h := compute_sha256_refines_oneshot oneByteFs shaPathA [97] rfl
  exact ⟨h.1, h.2 shaPathB rfl⟩

/-- C7: for every unreadable file path, `compute_sha256` returns the
empty string instead of raising, and since the empty string differs
from every real 64-hex-character cached digest, the dirty check of
`filter_files_by_hash` classifies the file as needing processing. -/
theorem compute_sha256_unreadable_dirty (readFile : String → Option (List Nat))
    (relpath : String → String) (cache : String → Option String) (p : String) (d : String)
    (hread : readFile p = none) (hcache : cache (relpath p) = some d)
    (hd : d.length = 64) :
    compute_sha256 readFile p = "" ∧
    ∀ l, p ∈ l → p ∈ filter_files_by_hash readFile relpath cache l := by
  have h1 : compute_sha256 readFile p = "" := by simp [compute_sha256, hread]
  refine ⟨h1, fun l hl => ?_⟩
  have hne : ¬ ("" : String) = d := by
    intro hEq
    rw [← hEq] at hd
    simp at hd
  simp [filter_files_by_hash, List.mem_filter, h1, hcache, hl, hne]

theorem compute_sha256_unreadable_dirty_witness :
    compute_sha256 noReadFs pathX = "" ∧
    pathX ∈ filter_files_by_hash noReadFs id cacheAll64 [pathX] := by
  have h := compute_sha256_unreadable_dirty noReadFs id cacheAll64 pathX
    (String.mk (List.replicate 64 'a')) rfl rfl (by decide)
  exact ⟨h.1, h.2 [pathX] (by simp)⟩

/-- C6 counterexample: `save_cache` does not write to a temporary file
and rename; its first primitive operation truncates the target in
place, so interrupting right after it leaves the target holding the
empty string, which is neither the old nor the new serialized
mapping, and no rename operation occurs in the sequence. -/
theorem save_cache_atomicity_counterexample :
    applyOps fsBeforeC6 ((save_cache_ops cacheFileName newCacheC6).take 1) cacheFileName ≠
      some (serializeCache oldCacheC6) ∧
    applyOps fsBeforeC6 ((save_cache_ops cacheFileName newCacheC6).take 1) cacheFileName ≠
      some (serializeCache newCacheC6) ∧
    (save_cache_ops cacheFileName newCacheC6).countP FsOp.isRename = 0 := by
  decide

/-- C6 amended: `save_cache` writes the serialization of the full
mapping directly into the target (truncate, then write), with no
temporary file and no rename; an uninterrupted save leaves the target
holding exactly the new serialized mapping. -/
theorem save_cache_direct_write (fs : Fs) (cache_file : String)
    (cache : List (String × String)) :
    applyOps fs (save_cache_ops cache_file cache) cache_file =
      some (serializeCache cache) ∧
    ∀ op ∈ save_cache_ops cache_file cache, op.isRename = false := by
  constructor
  · simp [applyOps, save_cache_ops, applyOp]
  · intro op hop
    simp only [save_cache_ops, List.mem_cons, List.mem_singleton] at hop
    rcases hop with rfl | rfl | h
    · rfl
    · rfl
    · simp at h

theorem save_cache_direct_write_witness :
    applyOps fsBeforeC6 (save_cache_ops cacheFileName newCacheC6) cacheFileName =
      some (serializeCache newCacheC6) ∧
    (FsOp.openTrunc cacheFileName).isRename = false :=
  ⟨(save_cache_direct_write fsBeforeC6 cacheFileName newCacheC6).1,
   (save_cache_direct_write fsBeforeC6 cacheFileName newCacheC6).2
     (FsOp.openTrunc cacheFileName) (by simp [save_cache_ops])⟩

theorem innerLoop_failed (env : RunEnv) (f : Nat) (st : PollSt)
    (hs : (env.service st.idx).status = "failed") :
    innerLoop env (f + 1) st = LoopRes.toRetry ⟨st.idx + 1, st.trace⟩ := by
  simp [innerLoop, hs]

theorem outerLoop_failed (env : RunEnv)
    (hfail : ∀ n, (env.service n).status = "failed") (f : Nat) :
    ∀ (rem i : Nat) (t : List Ev),
      outerLoop env (f + 1) rem ⟨i, t⟩ = (⟨i + rem, t⟩, some false) := by
  intro rem
  induction rem with
  | zero => intro i t; simp [outerLoop]
  | succ rem ih =>
      intro i t
      rw [outerLoop, innerLoop_failed env f ⟨i, t⟩ (hfail i)]
      dsimp only
      rw [ih (i + 1) t]
      have h1 : i + (rem + 1) = i + 1 + rem := by omega
      rw [h1]

/-- C5: given a remote service whose run status is always `failed`,
`poll_run_completion` performs exactly `MAX_RETRIES + 1` polling
attempts, terminates (no inner-loop fuel is consumed beyond the first
retrieval of each attempt), raises nothing (every internal error is
absorbed into a retry), and returns the failure sentinel `False`. -/
theorem poll_always_failed_retry_bound (env : RunEnv)
    (hfail : ∀ n, (env.service n).status = "failed") (fuel : Nat) (hfuel : 1 ≤ fuel) :
    poll_run_completion env fuel = (⟨MAX_RETRIES + 1, []⟩, some false) := by
  obtain ⟨f, rfl⟩ : ∃ f, fuel = f + 1 := ⟨fuel - 1, by omega⟩
  have h := outerLoop_failed env hfail f (MAX_RETRIES + 1) 0 []
  simpa [poll_run_completion] using h

theorem poll_always_failed_retry_bound_witness :
    poll_run_completion envAlwaysFailed 1 = (⟨MAX_RETRIES + 1, []⟩, some false) :=
  poll_always_failed_retry_bound envAlwaysFailed (fun _ => rfl) 1 (Nat.le_refl 1)

theorem runCalls_single (env : RunEnv) (tc : ToolCall)
    (fn : List (String × String) → Bool) (hname : tc.name = WRITE_FN)
    (hreg : env.functions WRITE_FN = some fn) (evs : List Ev) :
    runCalls env [tc] evs =
      if fn (env.decode tc.arguments)
      then (evs ++ [Ev.invoke tc.name (env.decode tc.arguments), Ev.submit tc.id], true)
      else (evs ++ [Ev.invoke tc.name (env.decode tc.arguments)], false) := by
  cases hfn : fn (env.decode tc.arguments) with
  | true => simp [runCalls, hname, hreg, hfn]
  | false => simp [runCalls, hname, hreg, hfn]

theorem innerLoop_requires_action (env : RunEnv) (f : Nat) (st : PollSt) (tc : ToolCall)
    (fn : List (String × String) → Bool)
    (hs : env.service st.idx = ⟨"requires_action", [tc]⟩)
    (hname : tc.name = WRITE_FN) (hreg : env.functions WRITE_FN = some fn) :
    innerLoop env (f + 1) st =
      if fn (env.decode tc.arguments)
      then LoopRes.ret true
        ⟨st.idx + 1, st.trace ++ [Ev.invoke tc.name (env.decode tc.arguments), Ev.submit tc.id]⟩
      else LoopRes.toRetry
        ⟨st.idx + 1, st.trace ++ [Ev.invoke tc.name (env.decode tc.arguments)]⟩ := by
  cases hfn : fn (env.decode tc.arguments) with
  | true => simp [innerLoop, hs, runCalls_single env tc fn hname hreg, hfn]
  | false => simp [innerLoop, hs, runCalls_single env tc fn hname hreg, hfn]

theorem outerLoop_ra_falsy (env : RunEnv) (tc : ToolCall)
    (fn : List (String × String) → Bool)
    (hs : ∀ n, env.service n = ⟨"requires_action", [tc]⟩)
    (hname : tc.name = WRITE_FN) (hreg : env.functions WRITE_FN = some fn)
    (hfalse : fn (env.decode tc.arguments) = false) (f : Nat) :
    ∀ (rem i : Nat) (t : List Ev),
      outerLoop env (f + 1) rem ⟨i, t⟩ =
        (⟨i + rem, t ++ List.replicate rem (Ev.invoke tc.name (env.decode tc.arguments))⟩,
         some false) := by
  intro rem
  induction rem with
  | zero => intro i t; simp [outerLoop]
  | succ rem ih =>
      intro i t
      rw [outerLoop, innerLoop_requires_action env f ⟨i, t⟩ tc fn (hs i) hname hreg,
        if_neg (by simp [hfalse])]
      dsimp only
      rw [ih (i + 1) (t ++ [Ev.invoke tc.name (env.decode tc.arguments)])]
      have h1 : i + 1 + rem = i + (rem + 1) := by omega
      simp [List.replicate_succ, h1, List.append_assoc]

/-- C1 amended: when the run polls as `requires_action` with one tool
call naming `write_file_with_new_docstring` and that name is registered,
a truthy return value yields exactly one invocation with the decoded
arguments followed by exactly one tool-output acknowledgment before
returning the value; a falsy return value yields no acknowledgment at
all — the attempt is treated as an internal error and retried, invoking
the function once per attempt until the retry bound returns `False`. -/
theorem poll_requires_action_dispatch (env : RunEnv) (tc : ToolCall)
    (fn : List (String × String) → Bool)
    (hs0 : env.service 0 = ⟨"requires_action", [tc]⟩)
    (hname : tc.name = WRITE_FN) (hreg : env.functions WRITE_FN = some fn)
    (fuel : Nat) (hfuel : 1 ≤ fuel) :
    (fn (env.decode tc.arguments) = true →
      poll_run_completion env fuel =
        (⟨1, [Ev.invoke WRITE_FN (env.decode tc.arguments), Ev.submit tc.id]⟩, some true)) ∧
    (fn (env.decode tc.arguments) = false → (∀ n, env.service n = env.service 0) →
      poll_run_completion env fuel =
        (⟨MAX_RETRIES + 1,
          List.replicate (MAX_RETRIES + 1) (Ev.invoke WRITE_FN (env.decode tc.arguments))⟩,
         some false)) := by
  obtain ⟨f, rfl⟩ : ∃ f, fuel = f + 1 := ⟨fuel - 1, by omega⟩
  constructor
  · intro htrue
    show outerLoop env (f + 1) (MAX_RETRIES + 1) ⟨0, []⟩ = _
    rw [outerLoop, innerLoop_requires_action env f ⟨0, []⟩ tc fn hs0 hname hreg,
      if_pos (by simp [htrue])]
    simp [hname]
  · intro hfalse hconst
    have hs : ∀ n, env.service n = ⟨"requires_action", [tc]⟩ := fun n => by
      rw [hconst n, hs0]
    have h := outerLoop_ra_falsy env tc fn hs hname hreg hfalse f (MAX_RETRIES + 1) 0 []
    simpa [poll_run_completion, hname] using h

theorem poll_requires_action_dispatch_witness :
    poll_run_completion envToolTruthy 1 =
      (⟨1, [Ev.invoke WRITE_FN [("new_file_content", "code")], Ev.submit "call_1"]⟩,
       some true) :=
  (poll_requires_action_dispatch envToolTruthy tcWrite (fun _ => true)
    rfl rfl rfl 1 (Nat.le_refl 1)).1 rfl

/-- C1 counterexample: for a run stuck in `requires_action` with one
correctly-named registered tool call returning a falsy value, the
function is invoked six times and no acknowledgment is ever submitted;
and for a tool call naming a registered function other than the
hard-coded `write_file_with_new_docstring`, the function is never
invoked at all — refuting "invokes that function exactly once and
submits exactly one acknowledgment regardless of truthiness". -/
theorem poll_tool_ack_counterexample :
    ((poll_run_completion envToolFalsy 1).1.trace.countP isInvokeEv = 6 ∧
     (poll_run_completion envToolFalsy 1).1.trace.countP isSubmitEv = 0 ∧
     (poll_run_completion envToolFalsy 1).2 = some false) ∧
    ((poll_run_completion envToolOtherName 1).1.trace = [] ∧
     (poll_run_completion envToolOtherName 1).2 = some false) := by
  decide

/-- C2: `get_relevant_context` counts only each document's own tokens
but appends `doc ++ "\n\n"`, so the returned string can exceed the
budget by the separators' tokens: with a one-token-per-character
tokenizer (the configured gpt2 tokenizer likewise assigns the `"\n\n"`
separator a positive count), a single two-token document against a
budget of 2 yields a returned string of 4 tokens. -/
theorem get_relevant_context_budget_exceeded :
    get_relevant_context charTok queryAB [("A", [])] 2 = "ab\n\n" ∧
    charTok (get_relevant_context charTok queryAB [("A", [])] 2) = 4 ∧
    2 < charTok (get_relevant_context charTok queryAB [("A", [])] 2) := by
  refine ⟨by decide, by decide, by decide⟩

/-- C10: every call of `construct_few_shot_prompt` returns the empty
string: it invokes `get_relevant_context` with a `where` keyword that
the callee's signature does not accept, Python raises `TypeError` at
call binding, and the surrounding handler returns the empty string, so
the normal return path (preamble, retrieved documents, context) is
unreachable. -/
theorem construct_few_shot_prompt_always_empty (enc : String → Nat)
    (query : String → List String) (classes : List (String × List String))
    (max_tokens : Nat) (context : Option String) :
    construct_few_shot_prompt enc query classes max_tokens context = "" := by
  have h : pyCallBindingOk get_relevant_context_py_params
      construct_few_shot_prompt_call_kwargs = false := by decide
  simp [construct_few_shot_prompt, h]

/-- C3: on a second run over an unchanged one-file repository whose
cache already holds the file's fingerprint, the description phase is
correctly filtered to nothing, but the per-folder docstring pass still
processes the file and issues a remote assistant call for it: the
second run does not make zero remote assistant calls. -/
theorem second_run_still_calls_assistant :
    filter_files_by_hash oneFileFs id cleanCacheFun [aPy] = [] ∧
    second_run_assistant_call_files oneFileFs cleanCacheList [] rootListing [aPy] =
      [aPy] := by
  constructor
  · have h : compute_sha256 oneFileFs aPy = sha256hex [97] :=
      compute_sha256_spec oneFileFs aPy [97] (by simp [oneFileFs])
    simp [filter_files_by_hash, h, cleanCacheFun]
  · rfl

/-- C4: the body of `approve_and_save_file` never consults `manual` —
its result (return value, file events, cache) is identical for
`manual = true` and `manual = false` for every input and every header
step — and its event trace never contains a diff presentation or a
user-confirmation request, contradicting its own docstring
("handles manual validation") and process_single_file's step 6. -/
theorem approve_and_save_file_ignores_manual (eh : String → Except String String)
    (nfc p rp : String) (cache : List (String × String)) :
    approve_and_save_file eh true nfc p rp cache =
      approve_and_save_file eh false nfc p rp cache ∧
    (approve_and_save_file eh true nfc p rp cache).2.1.countP isUserInteraction = 0 := by
  refine ⟨rfl, ?_⟩
  unfold approve_and_save_file
  by_cases h : (nfc.replace "` ``" "```") = ""
  · simp [h]
  · simp only [h, if_false]
    cases he : eh (nfc.replace "` ``" "```") with
    | error e => simp
    | ok c2 => simp [isUserInteraction]

/-- Contrast for C4: in the older revision's write gate
(src/docstring_ai/src/process.py lines 147-169), a write under
`manual = true` can only happen after both confirmations were
approved. -/
theorem src_gate_manual_write_needs_approval (a1 a2 nb : Bool) (p m : String) :
    FileEv.write p m ∈ (src_manual_write_gate true a1 a2 nb p m).1 →
      a1 = true ∧ a2 = true := by
  cases a1 <;> cases a2 <;> cases nb <;> simp [src_manual_write_gate]

/-- C9: with the actual header step — the name `ensure_docstring_header`
is imported but defined nowhere in the repository, so the step can only
fail — `approve_and_save_file` returns `False` on every input, writes
nothing (its event trace is empty, so neither a backup nor a file write
happens) and leaves the cache mapping unchanged. -/
theorem approve_and_save_file_always_fails (manual : Bool) (nfc p rp : String)
    (cache : List (String × String)) :
    approve_and_save_file ensure_docstring_header manual nfc p rp cache =
      (false, [], cache) := by
  unfold approve_and_save_file ensure_docstring_header
  by_cases h : (nfc.replace "` ``" "```") = ""
  · simp [h]
  · simp [h]

end DocstringAI
